import Mathlib

/-!
Verification of the connection registry and message-routing core of the
`debug_chat_bnc` server (`src/index.js`).

The server keeps an insertion-ordered map `onlineUsers : socketId ->
{username, socketId, joinTime}` and handles the socket events `user_join`,
`media_upload`, `image_upload`, `typing_start` / `typing_stop`,
`send_message`, `disconnect`, plus a periodic stale-connection sweep.
Each handler below is a direct translation of the corresponding JavaScript
handler: it takes the current registry (and the event payload) and returns
the new registry together with the ordered list of outbound emits.
-/

namespace DebugChat

/-- JavaScript `String.prototype.trim`: drop leading and trailing
whitespace.  Modelled over the string's character list so that it reduces
on concrete inputs. -/
def jsTrim (s : String) : String :=
  String.mk (((s.data.dropWhile Char.isWhitespace).reverse.dropWhile
    Char.isWhitespace).reverse)

/-- One entry of the `onlineUsers` map: `{ username, socketId, joinTime }`
(`username` is stored trimmed, see `user_join`). -/
structure UserSession where
  username : String
  socketId : String
  joinTime : Nat
deriving DecidableEq, Repr

/-- The `onlineUsers` JavaScript `Map`, modelled as its list of values in
insertion order (keys are the `socketId` fields). -/
abbrev Registry := List UserSession

/-- `onlineUsers.get(sid)`. -/
def mapGet (st : Registry) (sid : String) : Option UserSession :=
  st.find? (fun u => u.socketId == sid)

/-- `onlineUsers.set(u.socketId, u)`: a JavaScript `Map.set` replaces the
value in place when the key exists and appends otherwise. -/
def mapSet (st : Registry) (u : UserSession) : Registry :=
  if st.any (fun v => v.socketId == u.socketId) then
    st.map (fun v => if v.socketId == u.socketId then u else v)
  else st ++ [u]

/-- `onlineUsers.delete(sid)`. -/
def mapDelete (st : Registry) (sid : String) : Registry :=
  st.filter (fun u => u.socketId != sid)

/-- `findUserByUsername`: scans the map in insertion order and returns the
first session whose stored `username` equals the argument exactly. -/
def findUserByUsername (st : Registry) (username : String) : Option UserSession :=
  st.find? (fun u => u.username == username)

/-- `getOnlineUsersList()`: `Array.from(onlineUsers.values())`. -/
def getOnlineUsersList (st : Registry) : List UserSession := st

/-- Outbound event payloads (see the `emit` calls in `src/index.js`). -/
inductive Payload where
  | errorMsg (message : String)
  | userJoined (username socketId : String)
  | onlineUsersList (users : List UserSession)
  | joinSuccess (username : String) (onlineUsers : List UserSession)
  | getMedia (buffer : List Nat) (mediaType filename fromUser : String) (timestamp : Nat)
  | mediaSent (toUser filename mediaType : String) (size : Nat)
  | receiveMessage (fromUser message : String) (timestamp : Nat)
  | messageSent (toUser message : String) (timestamp : Nat)
  | userTyping (username : String) (isTyping : Bool)
  | getImage (buffer : List Nat)
  | userLeft (username socketId : String)
deriving DecidableEq, Repr

/-- An outbound send: `socket.emit` / `io.to(sid).emit` target a single
connection, `io.emit` targets every connection, `socket.broadcast.emit`
targets every connection except the sender. -/
inductive Emit where
  | toConn (sid : String) (p : Payload)
  | toAll (p : Payload)
  | toAllExcept (sid : String) (p : Payload)
deriving DecidableEq, Repr

/-- The `user_join` handler (src/index.js lines 58-101).  On strings the
check `!username || username.trim() === ''` collapses to
`jsTrim username = ""`; the duplicate check calls `findUserByUsername` on
the RAW `username`, while the stored record holds the trimmed name. -/
def user_join (st : Registry) (sid : String) (username : String) (now : Nat) :
    Registry × List Emit :=
  if jsTrim username == "" then
    (st, [Emit.toConn sid (Payload.errorMsg "Username is required")])
  else
    match findUserByUsername st username with
    | some _ => (st, [Emit.toConn sid (Payload.errorMsg "Username is already taken")])
    | none =>
      let st' := mapSet st ⟨jsTrim username, sid, now⟩
      (st', [Emit.toAllExcept sid (Payload.userJoined (jsTrim username) sid),
             Emit.toAll (Payload.onlineUsersList (getOnlineUsersList st')),
             Emit.toConn sid
               (Payload.joinSuccess (jsTrim username) (getOnlineUsersList st'))])

/-- The `media_upload` handler (src/index.js lines 105-154). -/
def media_upload (st : Registry) (sid : String) (buffer : List Nat)
    (targetUser mediaType filename : String) (now : Nat) : Registry × List Emit :=
  match mapGet st sid with
  | none => (st, [Emit.toConn sid (Payload.errorMsg "Please join with a username first")])
  | some sender =>
    if jsTrim targetUser == "" then
      (st, [Emit.toConn sid (Payload.errorMsg "Target user is required")])
    else
      match findUserByUsername st (jsTrim targetUser) with
      | none =>
        (st, [Emit.toConn sid
          (Payload.errorMsg ("User \"" ++ targetUser ++ "\" is not online"))])
      | some target =>
        (st, [Emit.toConn target.socketId
                (Payload.getMedia buffer mediaType filename sender.username now),
              Emit.toConn sid
                (Payload.mediaSent targetUser filename mediaType buffer.length)])

/-- The legacy `image_upload` handler (src/index.js lines 158-172): no
sender lookup at all; the target resolves by username, then by socket id,
then falls back to emitting at the raw `id`. -/
def image_upload (st : Registry) (_sid : String) (buffer : List Nat)
    (idField : String) : Registry × List Emit :=
  match findUserByUsername st idField with
  | some target => (st, [Emit.toConn target.socketId (Payload.getImage buffer)])
  | none =>
    match mapGet st idField with
    | some target => (st, [Emit.toConn target.socketId (Payload.getImage buffer)])
    | none => (st, [Emit.toConn idField (Payload.getImage buffer)])

/-- The `typing_start` / `typing_stop` handlers (src/index.js lines
176-201), parametric in the `isTyping` flag.  `data.targetUser` truthiness
on a string is `targetUser ≠ ""`. -/
def typing (st : Registry) (sid : String) (targetUser : String) (isTyping : Bool) :
    Registry × List Emit :=
  match mapGet st sid with
  | none => (st, [])
  | some sender =>
    if targetUser == "" then (st, [])
    else
      match findUserByUsername st targetUser with
      | none => (st, [])
      | some target =>
        (st, [Emit.toConn target.socketId (Payload.userTyping sender.username isTyping)])

/-- The `send_message` handler (src/index.js lines 205-246).  `!targetUser
|| !message` on strings is `targetUser = "" ∨ message = ""`. -/
def send_message (st : Registry) (sid : String) (targetUser message : String)
    (now : Nat) : Registry × List Emit :=
  match mapGet st sid with
  | none => (st, [Emit.toConn sid (Payload.errorMsg "Please join with a username first")])
  | some sender =>
    if targetUser == "" || message == "" then
      (st, [Emit.toConn sid (Payload.errorMsg "Target user and message are required")])
    else
      match findUserByUsername st (jsTrim targetUser) with
      | none =>
        (st, [Emit.toConn sid
          (Payload.errorMsg ("User \"" ++ targetUser ++ "\" is not online"))])
      | some target =>
        (st, [Emit.toConn target.socketId
                (Payload.receiveMessage sender.username (jsTrim message) now),
              Emit.toConn sid
                (Payload.messageSent targetUser (jsTrim message) now)])

/-- The `disconnect` handler (src/index.js lines 262-283). -/
def disconnect (st : Registry) (sid : String) : Registry × List Emit :=
  match mapGet st sid with
  | none => (st, [])
  | some user =>
    let st' := mapDelete st sid
    (st', [Emit.toAllExcept sid (Payload.userLeft user.username sid),
           Emit.toAll (Payload.onlineUsersList (getOnlineUsersList st'))])

/-- `staleThreshold = 5 * 60 * 1000` (milliseconds, src/index.js line 355). -/
def staleThreshold : Nat := 5 * 60 * 1000

/-- The sweep's removal condition for one session: `now - joinTime >
staleThreshold` and the socket is missing or not connected (`alive` is the
transport's combined liveness report). -/
def isStaleDead (alive : String → Bool) (now : Nat) (u : UserSession) : Bool :=
  decide (now - u.joinTime > staleThreshold) && !(alive u.socketId)

/-- One iteration of the sweep's `for ... of onlineUsers` loop body
(src/index.js lines 357-367). -/
def reaperStep (alive : String → Bool) (now : Nat)
    (acc : Registry × List Emit) (u : UserSession) : Registry × List Emit :=
  if isStaleDead alive now u then
    let st' := mapDelete acc.1 u.socketId
    (st', acc.2 ++ [Emit.toAll (Payload.onlineUsersList (getOnlineUsersList st'))])
  else acc

/-- The periodic stale-connection sweep (src/index.js lines 353-368): it
iterates the entries present when the sweep starts, deleting and
broadcasting per stale-dead entry. -/
def reaper (st : Registry) (alive : String → Bool) (now : Nat) :
    Registry × List Emit :=
  st.foldl (reaperStep alive now) (st, [])

/-! ### Helper lemmas -/

/-- Replacing the (existing) entry keyed `u.socketId` makes `u` the first
entry found under that key. -/
theorem find?_map_replace (st : Registry) (u : UserSession)
    (h : st.any (fun v => v.socketId == u.socketId) = true) :
    (st.map (fun v => if v.socketId == u.socketId then u else v)).find?
      (fun w => w.socketId == u.socketId) = some u := by
  induction st with
  | nil => simp at h
  | cons v st ih =>
    cases hv : (v.socketId == u.socketId) with
    | true =>
      rw [List.map_cons, if_pos hv]
      exact List.find?_cons_of_pos _ (by simp)
    | false =>
      have hne : ¬ (v.socketId == u.socketId) = true := by simp [hv]
      have h' : st.any (fun w => w.socketId == u.socketId) = true := by
        simpa [List.any_cons, hv] using h
      rw [List.map_cons, if_neg hne, List.find?_cons_of_neg _ (by simp [hv])]
      exact ih h'

/-- After `mapSet st u`, looking the key `u.socketId` up yields `u`. -/
theorem mapGet_mapSet_self (st : Registry) (u : UserSession) :
    mapGet (mapSet st u) u.socketId = some u := by
  unfold mapGet mapSet
  by_cases h : st.any (fun v => v.socketId == u.socketId) = true
  · rw [if_pos h]
    exact find?_map_replace st u h
  · rw [if_neg h]
    have hn : st.find? (fun w => w.socketId == u.socketId) = none := by
      rw [List.find?_eq_none]
      intro x hx hpx
      exact h (List.any_eq_true.mpr ⟨x, hx, hpx⟩)
    rw [List.find?_append, hn]
    simp

/-- The sweep produces one presence broadcast per stale-dead entry of the
iterated list. -/
theorem reaper_fold_snd_length (alive : String → Bool) (now : Nat) :
    ∀ (l : List UserSession) (s : Registry) (es : List Emit),
      ((l.foldl (reaperStep alive now) (s, es)).2).length =
        es.length + (l.filter (isStaleDead alive now)).length := by
  intro l
  induction l with
  | nil => intro s es; simp
  | cons u l ih =>
    intro s es
    cases hu : isStaleDead alive now u with
    | true =>
      have hstep : reaperStep alive now (s, es) u =
          (mapDelete s u.socketId,
           es ++ [Emit.toAll (Payload.onlineUsersList
             (getOnlineUsersList (mapDelete s u.socketId)))]) := by
        simp [reaperStep, hu]
      rw [List.foldl_cons, hstep, ih]
      simp [List.filter_cons, hu]
      omega
    | false =>
      have hstep : reaperStep alive now (s, es) u = (s, es) := by
        simp [reaperStep, hu]
      rw [List.foldl_cons, hstep, ih]
      simp [List.filter_cons, hu]

/-- The registry left by the sweep is the starting registry with exactly
the entries keyed like some stale-dead iterated entry filtered out. -/
theorem reaper_fold_fst (alive : String → Bool) (now : Nat) :
    ∀ (l : List UserSession) (s : Registry) (es : List Emit),
      (l.foldl (reaperStep alive now) (s, es)).1 =
        s.filter (fun v =>
          !(l.any (fun u => isStaleDead alive now u && v.socketId == u.socketId))) := by
  intro l
  induction l with
  | nil => intro s es; simp
  | cons u l ih =>
    intro s es
    cases hu : isStaleDead alive now u with
    | true =>
      have hstep : reaperStep alive now (s, es) u =
          (mapDelete s u.socketId,
           es ++ [Emit.toAll (Payload.onlineUsersList
             (getOnlineUsersList (mapDelete s u.socketId)))]) := by
        simp [reaperStep, hu]
      rw [List.foldl_cons, hstep, ih]
      unfold mapDelete
      rw [List.filter_filter]
      apply List.filter_congr
      intro v hv
      simp [List.any_cons, hu, Bool.not_or, bne, Bool.and_comm]
    | false =>
      have hstep : reaperStep alive now (s, es) u = (s, es) := by
        simp [reaperStep, hu]
      rw [List.foldl_cons, hstep, ih]
      apply List.filter_congr
      intro v hv
      simp [List.any_cons, hu]

/-- Every emit the sweep accumulates is a full-snapshot presence
broadcast. -/
theorem reaper_fold_snd_shape (alive : String → Bool) (now : Nat) :
    ∀ (l : List UserSession) (s : Registry) (es : List Emit),
      (∀ e ∈ es, ∃ us, e = Emit.toAll (Payload.onlineUsersList us)) →
      ∀ e ∈ (l.foldl (reaperStep alive now) (s, es)).2,
        ∃ us, e = Emit.toAll (Payload.onlineUsersList us) := by
  intro l
  induction l with
  | nil => intro s es h; simpa using h
  | cons u l ih =>
    intro s es h
    rw [List.foldl_cons]
    cases hu : isStaleDead alive now u with
    | true =>
      have hstep : reaperStep alive now (s, es) u =
          (mapDelete s u.socketId,
           es ++ [Emit.toAll (Payload.onlineUsersList
             (getOnlineUsersList (mapDelete s u.socketId)))]) := by
        simp [reaperStep, hu]
      rw [hstep]
      apply ih
      intro e he
      rcases List.mem_append.mp he with h1 | h2
      · exact h e h1
      · rw [List.mem_singleton.mp h2]
        exact ⟨_, rfl⟩
    | false =>
      have hstep : reaperStep alive now (s, es) u = (s, es) := by
        simp [reaperStep, hu]
      rw [hstep]
      exact ih s es h

/-! ### C1: trimmed-display-name uniqueness -/

/-- C1 counterexample: registering `"Bob"` and then `" Bob "` (same
trimmed name, different raw name) both succeed, leaving the Registry with
two sessions whose stored (trimmed) display names are both `"Bob"` — the
duplicate check compares the raw submitted name, so the second attempt is
not rejected and the Registry is changed. -/
theorem duplicate_trimmed_name_registered :
    user_join [⟨"Bob", "c1", 0⟩] "c2" " Bob " 1 =
      ([⟨"Bob", "c1", 0⟩, ⟨"Bob", "c2", 1⟩],
       [Emit.toAllExcept "c2" (Payload.userJoined "Bob" "c2"),
        Emit.toAll (Payload.onlineUsersList [⟨"Bob", "c1", 0⟩, ⟨"Bob", "c2", 1⟩]),
        Emit.toConn "c2"
          (Payload.joinSuccess "Bob" [⟨"Bob", "c1", 0⟩, ⟨"Bob", "c2", 1⟩])]) ∧
    (user_join [⟨"Bob", "c1", 0⟩] "c2" " Bob " 1).1.map UserSession.username =
      ["Bob", "Bob"] ∧
    jsTrim " Bob " = jsTrim "Bob" := by
  decide

/-- C1 amended: a registration whose RAW submitted name equals the stored
(trimmed) display name of any already-registered session — including the
attempter's own — fails with the duplicate-name error and leaves the
Registry unchanged. -/
theorem user_join_raw_duplicate_rejected (st : Registry)
    (sid username : String) (now : Nat) (u : UserSession)
    (hne : ¬ jsTrim username = "")
    (hdup : findUserByUsername st username = some u) :
    user_join st sid username now =
      (st, [Emit.toConn sid (Payload.errorMsg "Username is already taken")]) := by
  unfold user_join
  rw [if_neg (by simp [hne]), hdup]

/-- Witness for `user_join_raw_duplicate_rejected`: connection `"c1"`,
already registered as `"Bob"`, attempts to register `"Bob"` again and is
rejected with the Registry unchanged. -/
theorem user_join_raw_duplicate_rejected_witness :
    user_join [⟨"Bob", "c1", 0⟩] "c1" "Bob" 3 =
      ([⟨"Bob", "c1", 0⟩],
       [Emit.toConn "c1" (Payload.errorMsg "Username is already taken")]) :=
  user_join_raw_duplicate_rejected [⟨"Bob", "c1", 0⟩] "c1" "Bob" 3
    ⟨"Bob", "c1", 0⟩ (by decide) (by decide)

/-! ### C2: routing events from an unregistered sender -/

/-- C2 counterexample: the legacy `image_upload` handler never checks that
the sender is registered — with `"bob"` registered on connection `"B"`,
the unregistered connection `"A"` sends a legacy media event addressed to
`"bob"` and the payload IS delivered to `"B"`. -/
theorem image_upload_unregistered_sender_delivers :
    mapGet [⟨"bob", "B", 0⟩] "A" = none ∧
    image_upload [⟨"bob", "B", 0⟩] "A" [1, 2] "bob" =
      ([⟨"bob", "B", 0⟩], [Emit.toConn "B" (Payload.getImage [1, 2])]) := by
  decide

/-- C2 amended: for media-transfer and text-message events whose sender is
unregistered, the only emit is a "not joined" error back to the sender and
the Registry is unchanged; a typing signal from an unregistered sender
emits nothing.  (The legacy media event performs no sender check at all
and delivers its payload regardless.) -/
theorem unregistered_sender_no_delivery (st : Registry) (sid : String)
    (buf : List Nat) (targetUser mediaType filename message : String)
    (isTyping : Bool) (now : Nat) (h : mapGet st sid = none) :
    media_upload st sid buf targetUser mediaType filename now =
      (st, [Emit.toConn sid
        (Payload.errorMsg "Please join with a username first")]) ∧
    send_message st sid targetUser message now =
      (st, [Emit.toConn sid
        (Payload.errorMsg "Please join with a username first")]) ∧
    typing st sid targetUser isTyping = (st, []) := by
  refine ⟨?_, ?_, ?_⟩
  · unfold media_upload
    rw [h]
  · unfold send_message
    rw [h]
  · unfold typing
    rw [h]

/-- Witness for `unregistered_sender_no_delivery` at the registry holding
only `"bob"` on connection `"B"`, with unregistered sender `"A"`. -/
theorem unregistered_sender_no_delivery_witness :
    media_upload [⟨"bob", "B", 0⟩] "A" [1] "bob" "image/png" "f.png" 9 =
      ([⟨"bob", "B", 0⟩], [Emit.toConn "A"
        (Payload.errorMsg "Please join with a username first")]) ∧
    send_message [⟨"bob", "B", 0⟩] "A" "bob" "hi" 9 =
      ([⟨"bob", "B", 0⟩], [Emit.toConn "A"
        (Payload.errorMsg "Please join with a username first")]) ∧
    typing [⟨"bob", "B", 0⟩] "A" "bob" true = ([⟨"bob", "B", 0⟩], []) :=
  unregistered_sender_no_delivery [⟨"bob", "B", 0⟩] "A" [1] "bob"
    "image/png" "f.png" "hi" true 9 (by decide)

/-! ### C3: immutability of registered session records -/

/-- C3 counterexample: connection `"c1"` is registered as `"Bob"`, then
successfully registers again as `"Alice"`; `onlineUsers.set` overwrites
its existing session record (new display name AND new join time), so a
further register attempt from an already-registered connection does
change that connection's session record. -/
theorem reregister_overwrites_session :
    mapGet [⟨"Bob", "c1", 0⟩] "c1" = some ⟨"Bob", "c1", 0⟩ ∧
    (user_join [⟨"Bob", "c1", 0⟩] "c1" "Alice" 5).1 = [⟨"Alice", "c1", 5⟩] ∧
    mapGet (user_join [⟨"Bob", "c1", 0⟩] "c1" "Alice" 5).1 "c1" =
      some ⟨"Alice", "c1", 5⟩ := by
  decide

/-- C3 amended: no routing operation (media transfer, legacy media,
typing signal, text message) ever changes the Registry — hence no session
record — and a register attempt either leaves the Registry unchanged
(failure) or writes the new session under the attempter's connection id,
which REPLACES that connection's existing record when it was already
registered. -/
theorem session_records_immutable_amended (st : Registry) (sid : String)
    (buf : List Nat) (targetUser mediaType filename message idf username : String)
    (isTyping : Bool) (now : Nat) :
    (media_upload st sid buf targetUser mediaType filename now).1 = st ∧
    (image_upload st sid buf idf).1 = st ∧
    (typing st sid targetUser isTyping).1 = st ∧
    (send_message st sid targetUser message now).1 = st ∧
    ((user_join st sid username now).1 = st ∨
      (user_join st sid username now).1 = mapSet st ⟨jsTrim username, sid, now⟩) := by
  refine ⟨?_, ?_, ?_, ?_, ?_⟩
  · unfold media_upload
    rcases mapGet st sid with _ | sender
    · rfl
    · dsimp only
      split
      · rfl
      · rcases findUserByUsername st (jsTrim targetUser) with _ | target <;> rfl
  · unfold image_upload
    rcases findUserByUsername st idf with _ | t
    · rcases mapGet st idf with _ | t <;> rfl
    · rfl
  · unfold typing
    rcases mapGet st sid with _ | sender
    · rfl
    · dsimp only
      split
      · rfl
      · rcases findUserByUsername st targetUser with _ | target <;> rfl
  · unfold send_message
    rcases mapGet st sid with _ | sender
    · rfl
    · dsimp only
      split
      · rfl
      · rcases findUserByUsername st (jsTrim targetUser) with _ | target <;> rfl
  · unfold user_join
    split
    · exact Or.inl rfl
    · rcases findUserByUsername st username with _ | u
      · exact Or.inr rfl
      · exact Or.inl rfl

/-! ### C4: user-left notices on unregister -/

/-- C4 counterexample: the reaper removes the stale, dead session
`"alice"` but its only emit is the full-snapshot presence broadcast — no
`user_left` notice is sent for a reaper-triggered unregister. -/
theorem reaper_removal_emits_no_user_left :
    reaper [⟨"alice", "A", 0⟩] (fun _ => false) 400000 =
      ([], [Emit.toAll (Payload.onlineUsersList [])]) := by
  decide

/-- C4 amended: on explicit disconnect of a registered connection a
distinct `user_left` notice naming the departed identity is sent to all
other clients, alongside the full-snapshot presence broadcast; a
reaper-triggered unregister emits only full-snapshot presence broadcasts
and never a `user_left` notice. -/
theorem user_left_on_explicit_disconnect_only (st : Registry) (sid : String)
    (u : UserSession) (alive : String → Bool) (now : Nat)
    (h : mapGet st sid = some u) :
    disconnect st sid =
      (mapDelete st sid,
       [Emit.toAllExcept sid (Payload.userLeft u.username sid),
        Emit.toAll (Payload.onlineUsersList (getOnlineUsersList (mapDelete st sid)))]) ∧
    (∀ e ∈ (reaper st alive now).2,
      ∃ us, e = Emit.toAll (Payload.onlineUsersList us)) := by
  constructor
  · unfold disconnect
    rw [h]
  · exact reaper_fold_snd_shape alive now st st [] (by simp)

/-- Witness for `user_left_on_explicit_disconnect_only`: `"alice"` on
connection `"A"` disconnects; the reaper instance runs on the same
one-session registry. -/
theorem user_left_on_explicit_disconnect_only_witness :
    (disconnect [⟨"alice", "A", 0⟩] "A" =
      ([], [Emit.toAllExcept "A" (Payload.userLeft "alice" "A"),
            Emit.toAll (Payload.onlineUsersList [])])) ∧
    (∀ e ∈ (reaper [⟨"alice", "A", 0⟩] (fun _ => true) 400000).2,
      ∃ us, e = Emit.toAll (Payload.onlineUsersList us)) :=
  user_left_on_explicit_disconnect_only [⟨"alice", "A", 0⟩] "A"
    ⟨"alice", "A", 0⟩ (fun _ => true) 400000 (by decide)

/-! ### C5: end-to-end text message delivery -/

/-- C5: with `"alice"` registered on connection `sidA` and `"bob"`
registered on connection `sidB`, a `send_message` from `sidA` with target
`"bob"` and message `"hi"` produces exactly two emits: one
`receive_message{from:"alice", message:"hi"}` to `sidB` and one
`message_sent{to:"bob", message:"hi"}` confirmation to `sidA` — no other
connection receives anything and the Registry is unchanged. -/
theorem text_message_delivery (st : Registry) (sidA sidB : String)
    (sA sB : UserSession) (now : Nat)
    (hA : mapGet st sidA = some sA) (hAn : sA.username = "alice")
    (hB : findUserByUsername st "bob" = some sB) (hBs : sB.socketId = sidB) :
    send_message st sidA "bob" "hi" now =
      (st, [Emit.toConn sidB (Payload.receiveMessage "alice" "hi" now),
            Emit.toConn sidA (Payload.messageSent "bob" "hi" now)]) := by
  have htrim : jsTrim "bob" = "bob" := by decide
  have hmsg : jsTrim "hi" = "hi" := by decide
  unfold send_message
  rw [hA]
  dsimp only
  rw [if_neg (by decide), htrim, hB]
  dsimp only
  rw [hAn, hBs, hmsg]

/-- Witness for `text_message_delivery` on the two-session registry
`[alice@"A", bob@"B"]`. -/
theorem text_message_delivery_witness :
    send_message [⟨"alice", "A", 0⟩, ⟨"bob", "B", 0⟩] "A" "bob" "hi" 7 =
      ([⟨"alice", "A", 0⟩, ⟨"bob", "B", 0⟩],
       [Emit.toConn "B" (Payload.receiveMessage "alice" "hi" 7),
        Emit.toConn "A" (Payload.messageSent "bob" "hi" 7)]) :=
  text_message_delivery [⟨"alice", "A", 0⟩, ⟨"bob", "B", 0⟩] "A" "B"
    ⟨"alice", "A", 0⟩ ⟨"bob", "B", 0⟩ 7 (by decide) rfl (by decide) rfl

/-! ### C6: text message to an unresolvable target -/

/-- C6: a text message from a registered sender to a target name that
resolves to no live session produces exactly one emit — the
recipient-not-found error back to the sender — and the Registry is
unchanged, so zero outbound events reach any other connection. -/
theorem recipient_not_found_error (st : Registry) (sid targetUser message : String)
    (sender : UserSession) (now : Nat)
    (hs : mapGet st sid = some sender)
    (ht : ¬ targetUser = "") (hm : ¬ message = "")
    (hf : findUserByUsername st (jsTrim targetUser) = none) :
    send_message st sid targetUser message now =
      (st, [Emit.toConn sid
        (Payload.errorMsg ("User \"" ++ targetUser ++ "\" is not online"))]) := by
  unfold send_message
  rw [hs]
  dsimp only
  rw [if_neg (by simp [ht, hm]), hf]

/-- Witness for `recipient_not_found_error`: only `"alice"` is registered
and she messages the offline `"bob"`. -/
theorem recipient_not_found_error_witness :
    send_message [⟨"alice", "A", 0⟩] "A" "bob" "hi" 7 =
      ([⟨"alice", "A", 0⟩],
       [Emit.toConn "A" (Payload.errorMsg "User \"bob\" is not online")]) :=
  recipient_not_found_error [⟨"alice", "A", 0⟩] "A" "bob" "hi"
    ⟨"alice", "A", 0⟩ 7 (by decide) (by decide) (by decide) (by decide)

/-! ### C7: legacy media three-tier resolution -/

/-- C7: the legacy media handler resolves its `id` field in exactly three
tiers, in order: (1) as a display name; (2) failing that, as a connection
id in the registry; (3) failing both, the payload is addressed to the raw
`id` as a connection id with no existence check — and in every tier the
payload is emitted with no error reported. -/
theorem image_upload_three_tier (st : Registry) (sid : String) (buf : List Nat)
    (idf : String) (t : UserSession) :
    (findUserByUsername st idf = some t →
      image_upload st sid buf idf =
        (st, [Emit.toConn t.socketId (Payload.getImage buf)])) ∧
    (findUserByUsername st idf = none → mapGet st idf = some t →
      image_upload st sid buf idf =
        (st, [Emit.toConn t.socketId (Payload.getImage buf)])) ∧
    (findUserByUsername st idf = none → mapGet st idf = none →
      image_upload st sid buf idf =
        (st, [Emit.toConn idf (Payload.getImage buf)])) := by
  refine ⟨?_, ?_, ?_⟩
  · intro h1
    unfold image_upload
    rw [h1]
  · intro h1 h2
    unfold image_upload
    rw [h1]
    dsimp only
    rw [h2]
  · intro h1 h2
    unfold image_upload
    rw [h1]
    dsimp only
    rw [h2]

/-- Witness for `image_upload_three_tier`: with `"bob"` registered on
connection `"B"`, the id `"bob"` resolves by name (tier 1), the id `"B"`
resolves by connection (tier 2), and on the empty registry the unknown id
`"Z"` is addressed directly (tier 3). -/
theorem image_upload_three_tier_witness :
    image_upload [⟨"bob", "B", 0⟩] "A" [7] "bob" =
      ([⟨"bob", "B", 0⟩], [Emit.toConn "B" (Payload.getImage [7])]) ∧
    image_upload [⟨"bob", "B", 0⟩] "A" [7] "B" =
      ([⟨"bob", "B", 0⟩], [Emit.toConn "B" (Payload.getImage [7])]) ∧
    image_upload [] "A" [7] "Z" =
      ([], [Emit.toConn "Z" (Payload.getImage [7])]) :=
  ⟨(image_upload_three_tier [⟨"bob", "B", 0⟩] "A" [7] "bob"
      ⟨"bob", "B", 0⟩).1 (by decide),
   (image_upload_three_tier [⟨"bob", "B", 0⟩] "A" [7] "B"
      ⟨"bob", "B", 0⟩).2.1 (by decide) (by decide),
   (image_upload_three_tier [] "A" [7] "Z"
      ⟨"bob", "B", 0⟩).2.2 (by decide) (by decide)⟩

/-! ### C8: empty names rejected, surrounding whitespace trimmed -/

/-- C8: registering the raw name `""` or `"   "` fails with the
empty-name error and leaves the Registry unchanged, while registering
`"  Bob  "` (when no session holds a name matching it) succeeds and the
stored session record carries the trimmed display name `"Bob"`. -/
theorem register_trims_and_rejects_empty (st : Registry) (sid : String)
    (now : Nat) (h : findUserByUsername st "  Bob  " = none) :
    user_join st sid "" now =
      (st, [Emit.toConn sid (Payload.errorMsg "Username is required")]) ∧
    user_join st sid "   " now =
      (st, [Emit.toConn sid (Payload.errorMsg "Username is required")]) ∧
    mapGet (user_join st sid "  Bob  " now).1 sid = some ⟨"Bob", sid, now⟩ := by
  refine ⟨?_, ?_, ?_⟩
  · unfold user_join
    rw [if_pos (by decide)]
  · unfold user_join
    rw [if_pos (by decide)]
  · have htrim : jsTrim "  Bob  " = "Bob" := by decide
    unfold user_join
    rw [if_neg (by decide), h]
    dsimp only
    rw [htrim]
    exact mapGet_mapSet_self st ⟨"Bob", sid, now⟩

/-- Witness for `register_trims_and_rejects_empty` on the empty
registry. -/
theorem register_trims_and_rejects_empty_witness :
    user_join [] "c1" "" 0 =
      ([], [Emit.toConn "c1" (Payload.errorMsg "Username is required")]) ∧
    user_join [] "c1" "   " 0 =
      ([], [Emit.toConn "c1" (Payload.errorMsg "Username is required")]) ∧
    mapGet (user_join [] "c1" "  Bob  " 0).1 "c1" = some ⟨"Bob", "c1", 0⟩ :=
  register_trims_and_rejects_empty [] "c1" 0 (by decide)

/-! ### C9: the stale-connection sweep -/

/-- C9: on a sweep over a registry with distinct connection ids, every
session past the 5-minute staleness threshold whose connection is dead or
unknown is removed, every other session (past the threshold but alive, or
not past the threshold) stays in the registry, the sweep emits exactly one
presence broadcast per removed session, and every emit it produces is a
full-snapshot presence broadcast. -/
theorem reaper_sweep_correct (st : Registry) (alive : String → Bool)
    (now : Nat) (hnd : (st.map UserSession.socketId).Nodup) :
    (∀ u ∈ st, isStaleDead alive now u = true → u ∉ (reaper st alive now).1) ∧
    (∀ u ∈ st, isStaleDead alive now u = false → u ∈ (reaper st alive now).1) ∧
    ((reaper st alive now).2).length =
      (st.filter (isStaleDead alive now)).length ∧
    (∀ e ∈ (reaper st alive now).2,
      ∃ us, e = Emit.toAll (Payload.onlineUsersList us)) := by
  refine ⟨?_, ?_, ?_, ?_⟩
  · intro u hu hs hmem
    rw [reaper, reaper_fold_fst] at hmem
    have hany : st.any
        (fun w => isStaleDead alive now w && u.socketId == w.socketId) = true :=
      List.any_eq_true.mpr ⟨u, hu, by simp [hs]⟩
    have hp := (List.mem_filter.mp hmem).2
    rw [hany] at hp
    simp at hp
  · intro u hu hs
    rw [reaper, reaper_fold_fst]
    refine List.mem_filter.mpr ⟨hu, ?_⟩
    have hany : st.any
        (fun w => isStaleDead alive now w && u.socketId == w.socketId) = false := by
      rw [List.any_eq_false]
      intro w hw hpw
      simp only [Bool.and_eq_true, beq_iff_eq] at hpw
      obtain ⟨hw1, hw2⟩ := hpw
      have hwu : w = u :=
        List.inj_on_of_nodup_map hnd hw hu hw2.symm
      rw [hwu] at hw1
      rw [hw1] at hs
      exact Bool.true_eq_false.mp hs
    rw [hany]
    rfl
  · rw [reaper, reaper_fold_snd_length]
    simp
  · exact reaper_fold_snd_shape alive now st st [] (by simp)

/-- Witness for `reaper_sweep_correct`: sessions `"a"` (stale, dead),
`"b"` (stale, alive) and `"c"` (fresh, dead) at `now = 400000` with only
connection `"B"` alive — `"a"` is removed, `"b"` and `"c"` stay, and the
sweep emits one presence broadcast. -/
theorem reaper_sweep_correct_witness :
    (⟨"a", "A", 0⟩ : UserSession) ∉
      (reaper [⟨"a", "A", 0⟩, ⟨"b", "B", 0⟩, ⟨"c", "C", 350000⟩]
        (fun s => s == "B") 400000).1 ∧
    (⟨"b", "B", 0⟩ : UserSession) ∈
      (reaper [⟨"a", "A", 0⟩, ⟨"b", "B", 0⟩, ⟨"c", "C", 350000⟩]
        (fun s => s == "B") 400000).1 ∧
    (⟨"c", "C", 350000⟩ : UserSession) ∈
      (reaper [⟨"a", "A", 0⟩, ⟨"b", "B", 0⟩, ⟨"c", "C", 350000⟩]
        (fun s => s == "B") 400000).1 ∧
    ((reaper [⟨"a", "A", 0⟩, ⟨"b", "B", 0⟩, ⟨"c", "C", 350000⟩]
        (fun s => s == "B") 400000).2).length = 1 :=
  ⟨(reaper_sweep_correct [⟨"a", "A", 0⟩, ⟨"b", "B", 0⟩, ⟨"c", "C", 350000⟩]
      (fun s => s == "B") 400000 (by decide)).1
      ⟨"a", "A", 0⟩ (by simp) (by decide),
   (reaper_sweep_correct [⟨"a", "A", 0⟩, ⟨"b", "B", 0⟩, ⟨"c", "C", 350000⟩]
      (fun s => s == "B") 400000 (by decide)).2.1
      ⟨"b", "B", 0⟩ (by simp) (by decide),
   (reaper_sweep_correct [⟨"a", "A", 0⟩, ⟨"b", "B", 0⟩, ⟨"c", "C", 350000⟩]
      (fun s => s == "B") 400000 (by decide)).2.1
      ⟨"c", "C", 350000⟩ (by simp) (by decide),
   ((reaper_sweep_correct [⟨"a", "A", 0⟩, ⟨"b", "B", 0⟩, ⟨"c", "C", 350000⟩]
      (fun s => s == "B") 400000 (by decide)).2.2.1).trans (by decide)⟩

/-! ### C10: delivered message text is trimmed -/

/-- C10: on every successful text-message send, both the
`receive_message` payload delivered to the recipient and the
`message_sent` confirmation echoed to the sender carry the submitted
message with surrounding whitespace trimmed, not the raw submitted
string. -/
theorem message_text_trimmed (st : Registry) (sid targetUser message : String)
    (sender target : UserSession) (now : Nat)
    (hs : mapGet st sid = some sender)
    (ht : ¬ targetUser = "") (hm : ¬ message = "")
    (hf : findUserByUsername st (jsTrim targetUser) = some target) :
    send_message st sid targetUser message now =
      (st, [Emit.toConn target.socketId
              (Payload.receiveMessage sender.username (jsTrim message) now),
            Emit.toConn sid
              (Payload.messageSent targetUser (jsTrim message) now)]) := by
  unfold send_message
  rw [hs]
  dsimp only
  rw [if_neg (by simp [ht, hm]), hf]

/-- Witness for `message_text_trimmed`: the submitted text `"  hi  "` is
delivered and echoed as `"hi"`. -/
theorem message_text_trimmed_witness :
    send_message [⟨"alice", "A", 0⟩, ⟨"bob", "B", 0⟩] "A" "bob" "  hi  " 7 =
      ([⟨"alice", "A", 0⟩, ⟨"bob", "B", 0⟩],
       [Emit.toConn "B" (Payload.receiveMessage "alice" "hi" 7),
        Emit.toConn "A" (Payload.messageSent "bob" "hi" 7)]) :=
  message_text_trimmed [⟨"alice", "A", 0⟩, ⟨"bob", "B", 0⟩] "A" "bob"
    "  hi  " ⟨"alice", "A", 0⟩ ⟨"bob", "B", 0⟩ 7
    (by decide) (by decide) (by decide) (by decide)

end DebugChat
